import Mathlib

/-
Verification of the Farm-Merge-Idle progression and economy engine.

The definitions below are a shallow embedding of the game core found in
src/App.tsx, src/components/UpgradeList.tsx and src/components/HexBoard.tsx.
JavaScript numbers are modelled as exact rationals, array state as lists,
and every ambient Math.random draw as an explicit oracle parameter
(a rational roll in the range used by the source comparison, or a natural
pick index for uniform choices from a list).
-/

namespace FarmMerge

/-- Crop item, from src/App.tsx spawnCropAt: an object with an opaque random
id string, a level, and the constant type CROP.  The id and type fields play
no role in any economy rule and are omitted. -/
structure Item where
  level : Nat
deriving Repr, DecidableEq

/-- Board cell, from src/types (BoardCell): axial coordinates, an optional
item, plus optional locked and fertile flags (undefined in JS behaves as
false; modelled as plain Bool). -/
structure BoardCell where
  q : Int
  r : Int
  item : Option Item
  locked : Bool
  fertile : Bool
deriving Repr, DecidableEq

/-- Hex distance from the center, from src/App.tsx getHexDistance:
(|q| + |r| + |q + r|) / 2 (the sum is always even, so Nat division is
exact here). -/
def getHexDistance (q r : Int) : Nat :=
  (q.natAbs + r.natAbs + (q + r).natAbs) / 2

/-- Initial grid, from src/App.tsx generateInitialGrid: q runs -2..2, r runs
max(-2, -q-2)..min(2, -q+2); a cell starts locked iff its hex distance from
the center is 2 (the outer ring). -/
def generateInitialGrid : List BoardCell :=
  ((List.range 5).map (fun i => (i : Int) - 2)).flatMap (fun q =>
    let r1 : Int := max (-2) (-q - 2)
    let r2 : Int := min 2 (-q + 2)
    (List.range (r2 - r1 + 1).toNat).map (fun j =>
      let r : Int := r1 + j
      { q := q, r := r, item := none, locked := getHexDistance q r == 2,
        fertile := false }))

/-- Crop spawning, from src/App.tsx spawnCropAt: place a new item of the
given level at the index only when the cell exists and is empty; otherwise
the grid is returned unchanged. -/
def spawnCropAt (grid : List BoardCell) (index : Nat) (plantLevel : Nat) :
    List BoardCell :=
  match grid.get? index with
  | some cell =>
    if cell.item = none then
      grid.set index { cell with item := some { level := plantLevel } }
    else grid
  | none => grid

/-- Upgrade entry, from src/components/UpgradeList.tsx UpgradeState. -/
structure UpgradeState where
  level : Nat
  progress : Nat
deriving Repr, DecidableEq

/-- Seeds ledger, from src/components/UpgradeList.tsx SeedsState: the five
fixed seed upgrade ids plus the optional seedBaseTier field (absent until
seed quality first crosses a multiple of 10). -/
structure SeedsState where
  seed_production : UpgradeState
  seed_quality : UpgradeState
  seed_storage : UpgradeState
  seed_surplus : UpgradeState
  bonus_seeds : UpgradeState
  seedBaseTier : Option Nat
deriving Repr, DecidableEq

/-- Crops ledger, from src/components/UpgradeList.tsx CROPS_UPGRADES ids. -/
structure CropsState where
  crop_merging : UpgradeState
  plot_expansion : UpgradeState
  merge_harvest : UpgradeState
  fertile_soil : UpgradeState
  lucky_merge : UpgradeState
deriving Repr, DecidableEq

/-- Harvest ledger, from src/components/UpgradeList.tsx HARVEST_UPGRADES ids. -/
structure HarvestState where
  harvest_speed : UpgradeState
  crop_value : UpgradeState
  harvest_boost : UpgradeState
  crop_synergy : UpgradeState
  lucky_harvest : UpgradeState
deriving Repr, DecidableEq

/-- Seed quality chance within the current tier, from getSeedQualityPercent:
(level mod 10) times 10. -/
def getSeedQualityPercent (s : SeedsState) : ℚ :=
  ((s.seed_quality.level % 10) * 10 : Nat)

/-- Base plant tier, from getSeedBaseTier: the seedBaseTier field, defaulting
to 1 when unset. -/
def getSeedBaseTier (s : SeedsState) : Nat :=
  s.seedBaseTier.getD 1

/-- Bonus seed chance, from getBonusSeedChance: Math.min(level * 5, 50). -/
def getBonusSeedChance (s : SeedsState) : ℚ :=
  min ((s.bonus_seeds.level : ℚ) * 5) 50

/-- Seed surplus coin value, from getSeedSurplusValue: 0 at level 0, then
10 * 2 ^ (level - 1). -/
def getSeedSurplusValue (s : SeedsState) : ℚ :=
  if s.seed_surplus.level = 0 then 0
  else 10 * (2 : ℚ) ^ (s.seed_surplus.level - 1)

/-- Crop merging multiplier, from getCropMergingMultiplier:
1.0 + 0.1 * level. -/
def getCropMergingMultiplier (c : CropsState) : ℚ :=
  1 + (1 / 10) * (c.crop_merging.level : ℚ)

/-- Lucky merge chance, from getLuckyMergeChance: level * 5, with no cap in
the formula itself. -/
def getLuckyMergeChance (c : CropsState) : ℚ :=
  (c.lucky_merge.level : ℚ) * 5

/-- Merge harvest chance, from getMergeHarvestChance: level * 5, with no cap
in the formula itself. -/
def getMergeHarvestChance (c : CropsState) : ℚ :=
  (c.merge_harvest.level : ℚ) * 5

/-- Crop value multiplier, from getCropValueMultiplier: 1.0 + 0.1 * level. -/
def getCropValueMultiplier (h : HarvestState) : ℚ :=
  1 + (1 / 10) * (h.crop_value.level : ℚ)

/-- Harvest boost percent, from getHarvestBoostPercent: level * 2, with no
cap in the formula itself. -/
def getHarvestBoostPercent (h : HarvestState) : ℚ :=
  (h.harvest_boost.level : ℚ) * 2

/-- Crop synergy multiplier, from getCropSynergyMultiplier:
1.0 + 0.1 * level. -/
def getCropSynergyMultiplier (h : HarvestState) : ℚ :=
  1 + (1 / 10) * (h.crop_synergy.level : ℚ)

/-- Lucky harvest chance, from getLuckyHarvestChance: level * 5, with no cap
in the formula itself. -/
def getLuckyHarvestChance (h : HarvestState) : ℚ :=
  (h.lucky_harvest.level : ℚ) * 5

/-- Maxed check for lucky_merge, from isLuckyMergeMaxed: level at least 10.
The purchase button in UpgradeList renders MAX and refuses the click once
this holds. -/
def isLuckyMergeMaxed (c : CropsState) : Bool :=
  10 ≤ c.lucky_merge.level

/-- Maxed check for merge_harvest, from isMergeHarvestMaxed. -/
def isMergeHarvestMaxed (c : CropsState) : Bool :=
  10 ≤ c.merge_harvest.level

/-- Maxed check for lucky_harvest, from isLuckyHarvestMaxed. -/
def isLuckyHarvestMaxed (h : HarvestState) : Bool :=
  10 ≤ h.lucky_harvest.level

/-- Maxed check for harvest_boost, from isHarvestBoostMaxed. -/
def isHarvestBoostMaxed (h : HarvestState) : Bool :=
  10 ≤ h.harvest_boost.level

/-- Maxed check for bonus_seeds, from isBonusSeedMaxed. -/
def isBonusSeedMaxed (s : SeedsState) : Bool :=
  10 ≤ s.bonus_seeds.level

/-- Coin value per crop level, from src/App.tsx getCoinValueForLevel:
5 * 2 ^ (level - 1) with a JS number exponent, so level 1 gives 5, level 2
gives 10 and so on (an integer zpow models Math.pow faithfully, including
the fractional value a level-0 argument would produce). -/
def getCoinValueForLevel (level : Nat) : ℚ :=
  5 * (2 : ℚ) ^ ((level : ℤ) - 1)

example : getCoinValueForLevel 3 = 20 := by
  norm_num [getCoinValueForLevel]

example : generateInitialGrid.length = 19 := by decide

example : (generateInitialGrid.filter (·.locked)).length = 12 := by decide

/-- Merge level increase, from src/App.tsx getMergeLevelIncrease: the lucky
merge roll gives +2 instead of +1 with probability luckyMergeChance, but is
blocked entirely when the merged level is already at least the highest plant
level ever (it would skip discovering the next level).  The ambient
Math.random() * 100 draw is the explicit roll parameter. -/
def getMergeLevelIncrease (crops : CropsState) (highestPlantEver : Nat)
    (currentPlantLevel : Nat) (roll : ℚ) : Nat :=
  let luckyMergeChance := getLuckyMergeChance crops
  let wouldSkipNewLevel := highestPlantEver ≤ currentPlantLevel
  let canLuckyMerge := 0 < luckyMergeChance ∧ ¬wouldSkipNewLevel
  if canLuckyMerge ∧ roll < luckyMergeChance then 2 else 1

/-- Grid transformation of src/App.tsx handleMerge (the setGrid updater):
no source item means no change; a target item of equal level merges (target
level rises by levelIncrease, source empties); an absent target item
relocates the source item; a target item of a different level changes
nothing.  The updater never consults the locked flag.  Out-of-range indices
(which would throw in JS and are never produced by the HexBoard caller)
defensively return the grid unchanged. -/
def handleMergeGrid (grid : List BoardCell) (sourceIdx targetIdx : Nat)
    (levelIncrease : Nat) : List BoardCell :=
  match grid.get? sourceIdx, grid.get? targetIdx with
  | some source, some target =>
    match source.item with
    | none => grid
    | some sItem =>
      match target.item with
      | some tItem =>
        if tItem.level = sItem.level then
          (grid.set targetIdx
              { target with item := some { tItem with level := tItem.level + levelIncrease } }).set
            sourceIdx { source with item := none }
        else grid
      | none =>
        (grid.set targetIdx { target with item := source.item }).set
          sourceIdx { source with item := none }
  | _, _ => grid

/-- Complete merge action as the drag-release path performs it: HexBoard
calls getMergeLevelIncrease with the dragged (source) item level, then
onMerge = handleMerge applies the grid update with that cached increase.
For a relocate the increase is unused by handleMergeGrid, so computing it
up front is extensionally faithful. -/
def mergeAction (crops : CropsState) (highestPlantEver : Nat) (roll : ℚ)
    (grid : List BoardCell) (sourceIdx targetIdx : Nat) : List BoardCell :=
  match grid.get? sourceIdx with
  | some src =>
    match src.item with
    | some it =>
      handleMergeGrid grid sourceIdx targetIdx
        (getMergeLevelIncrease crops highestPlantEver it.level roll)
    | none => grid
  | none => grid

/-- Number of occupied cells on the board. -/
def cropCount (grid : List BoardCell) : Nat :=
  grid.countP (fun c => c.item.isSome)

/-- Drop-target validation from src/components/HexBoard.tsx onUp: onMerge is
invoked only when the target exists, differs from the source, is not locked,
and either holds an item of the dragged (source) level (isValidMerge) or is
empty (isEmptyCell). -/
def hexDropAllowed (grid : List BoardCell) (sourceIdx targetIdx : Nat) : Bool :=
  match grid.get? sourceIdx, grid.get? targetIdx with
  | some cs, some ct =>
    if sourceIdx = targetIdx then false
    else if ct.locked then false
    else
      match cs.item, ct.item with
      | some si, some ti => ti.level == si.level
      | _, none => true
      | _, _ => false
  | _, _ => false

/-- Pointer-down validation from src/components/HexBoard.tsx
handlePointerDown: a drag can only start on an unlocked occupied cell; the
plant tap path likewise only targets unlocked cells.  True iff the cell
exists and is not locked. -/
def isUnlockedCell (grid : List BoardCell) (i : Nat) : Bool :=
  match grid.get? i with
  | some c => !c.locked
  | none => false

/-- Seed meter tap, from src/App.tsx handlePlantClick (the branch with no
seeds in storage) together with the tap-zoom completion and the 100-percent
effect: start is clamped at 0, +15 is added; past 100 the production event
fires and the meter keeps the remainder; at exactly 100 the event fires and
the meter resets to 0; otherwise the meter just advances.  Returns the meter
value after the logical tick and the number of production events fired. -/
def seedTapMeter (p : ℚ) : ℚ × Nat :=
  let start := max 0 p
  let totalAfterTap := start + 15
  if 100 < totalAfterTap then (totalAfterTap - 100, 1)
  else if 100 ≤ totalAfterTap then (0, 1)
  else (totalAfterTap, 0)

/-- Harvest meter tap, from src/App.tsx handleHarvestClick together with the
tap-zoom completion and the 100-percent effect: the tap target is
Math.min(100, current + 15) — any excess past 100 is discarded — and on
reaching 100 the harvest fires once and the meter resets to 0.  Returns the
meter value after the logical tick and the number of harvest events
fired. -/
def harvestTapMeter (p : ℚ) : ℚ × Nat :=
  let next := min 100 (p + 15)
  if 100 ≤ next then (0, 1) else (next, 0)

example : seedTapMeter 90 = (5, 1) := by norm_num [seedTapMeter]
example : harvestTapMeter 90 = (0, 1) := by norm_num [harvestTapMeter]

/-- Fixed enumerable set of upgrade ids, from the SEEDS_UPGRADES,
CROPS_UPGRADES and HARVEST_UPGRADES tables of src/components/UpgradeList.tsx
(the UI only ever calls handleUpgrade with an id of the category it
renders, so the id determines its ledger). -/
inductive UpgradeId where
  | seed_production
  | seed_quality
  | seed_storage
  | seed_surplus
  | bonus_seeds
  | plot_expansion
  | crop_merging
  | merge_harvest
  | fertile_soil
  | lucky_merge
  | harvest_speed
  | crop_value
  | crop_synergy
  | harvest_boost
  | lucky_harvest
deriving Repr, DecidableEq

/-- Base cost per upgrade id, from the UPGRADE_COSTS table. -/
def upgradeBaseCost : UpgradeId → ℚ
  | .seed_production => 75
  | .seed_quality => 250
  | .seed_storage => 40
  | .seed_surplus => 120
  | .bonus_seeds => 300
  | .plot_expansion => 150
  | .crop_merging => 200
  | .merge_harvest => 350
  | .fertile_soil => 500
  | .lucky_merge => 600
  | .harvest_speed => 90
  | .crop_value => 250
  | .crop_synergy => 300
  | .harvest_boost => 180
  | .lucky_harvest => 450

/-- Growth factor per upgrade id, from the UPGRADE_COSTS table (exact decimal
values of the JS literals). -/
def upgradeGrowth : UpgradeId → ℚ
  | .seed_production => 1.18
  | .seed_quality => 1
  | .seed_storage => 1.16
  | .seed_surplus => 1.22
  | .bonus_seeds => 1.28
  | .plot_expansion => 1.35
  | .crop_merging => 1.20
  | .merge_harvest => 1.27
  | .fertile_soil => 1.33
  | .lucky_merge => 1.30
  | .harvest_speed => 1.18
  | .crop_value => 1.23
  | .crop_synergy => 1.24
  | .harvest_boost => 1.22
  | .lucky_harvest => 1.27

/-- Stage costs for seed_quality, from UPGRADE_COSTS.seed_quality.stageCosts. -/
def seedQualityStageCosts : List ℚ := [250, 900, 3000, 10000]

/-- JS Math.round for the nonnegative values used here: round half up (the
executable Rat.floor is used so that concrete costs evaluate). -/
def jsRound (x : ℚ) : ℤ := (x + 1 / 2).floor

theorem jsRound_eq (x : ℚ) : jsRound x = ⌊x + 1 / 2⌋ := by
  rw [jsRound, Rat.floor_def', ← Rat.floor_def]

/-- Upgrade cost law, from calculateUpgradeCost: seed_quality uses stage
pricing (stage = level / 10, clamped to the last table entry), every other
id uses base * growth ^ level; both are divided by 5, rounded, and scaled
back by 5. -/
def calculateUpgradeCost (id : UpgradeId) (currentLevel : Nat) : ℚ :=
  if id = .seed_quality then
    let stage := currentLevel / 10
    let stageCost :=
      seedQualityStageCosts.getD (min stage (seedQualityStageCosts.length - 1)) 0
    (jsRound (stageCost / 5) : ℚ) * 5
  else
    let rawCost := upgradeBaseCost id * upgradeGrowth id ^ currentLevel
    (jsRound (rawCost / 5) : ℚ) * 5

example : calculateUpgradeCost .plot_expansion 0 = 150 := by
  rw [calculateUpgradeCost, if_neg (by decide)]
  norm_num [jsRound_eq, upgradeBaseCost, upgradeGrowth]
example : calculateUpgradeCost .plot_expansion 1 = 205 := by
  rw [calculateUpgradeCost, if_neg (by decide)]
  norm_num [jsRound_eq, upgradeBaseCost, upgradeGrowth]
example : calculateUpgradeCost .seed_quality 10 = 900 := by
  norm_num [calculateUpgradeCost, jsRound_eq, seedQualityStageCosts]

/-- Initial seeds ledger, from createInitialSeedsState: the spread of
createInitialState(SEEDS_UPGRADES) is overridden for each of the five seed
ids, leaving every level at 0; the seedBaseTier field is not set (JS
undefined, read back through a default of 1). -/
def createInitialSeedsState : SeedsState :=
  { seed_production := ⟨0, 0⟩
    seed_quality := ⟨0, 0⟩
    seed_storage := ⟨0, 0⟩
    seed_surplus := ⟨0, 0⟩
    bonus_seeds := ⟨0, 0⟩
    seedBaseTier := none }

/-- Initial crops ledger, from createInitialCropsState: every upgrade starts
at level 0 except plot_expansion, which is written with level 1. -/
def createInitialCropsState : CropsState :=
  { crop_merging := ⟨0, 0⟩
    plot_expansion := ⟨1, 0⟩
    merge_harvest := ⟨0, 0⟩
    fertile_soil := ⟨0, 0⟩
    lucky_merge := ⟨0, 0⟩ }

/-- Initial harvest ledger, from createInitialHarvestState: all levels 0. -/
def createInitialHarvestState : HarvestState :=
  { harvest_speed := ⟨0, 0⟩
    crop_value := ⟨0, 0⟩
    harvest_boost := ⟨0, 0⟩
    crop_synergy := ⟨0, 0⟩
    lucky_harvest := ⟨0, 0⟩ }

/-- Top-level session state, from the useState initializers of src/App.tsx
App: money, storage, highest plant level ever, the two meter percentages,
the board and the three ledgers. -/
structure GameSession where
  money : ℚ
  seedsInStorage : Nat
  highestPlantEver : Nat
  seedProgress : ℚ
  harvestProgress : ℚ
  grid : List BoardCell
  seedsState : SeedsState
  cropsState : CropsState
  harvestState : HarvestState
deriving Repr, DecidableEq

/-- Fresh session, from the initial useState values of src/App.tsx App. -/
def initialGameSession : GameSession :=
  { money := 0
    seedsInStorage := 0
    highestPlantEver := 1
    seedProgress := 0
    harvestProgress := 0
    grid := generateInitialGrid
    seedsState := createInitialSeedsState
    cropsState := createInitialCropsState
    harvestState := createInitialHarvestState }

/-- Current level of an upgrade id inside the session, as the UI reads
state.level from the ledger of the id before calling handleUpgrade. -/
def upgradeLevel (id : UpgradeId) (s : GameSession) : Nat :=
  match id with
  | .seed_production => s.seedsState.seed_production.level
  | .seed_quality => s.seedsState.seed_quality.level
  | .seed_storage => s.seedsState.seed_storage.level
  | .seed_surplus => s.seedsState.seed_surplus.level
  | .bonus_seeds => s.seedsState.bonus_seeds.level
  | .plot_expansion => s.cropsState.plot_expansion.level
  | .crop_merging => s.cropsState.crop_merging.level
  | .merge_harvest => s.cropsState.merge_harvest.level
  | .fertile_soil => s.cropsState.fertile_soil.level
  | .lucky_merge => s.cropsState.lucky_merge.level
  | .harvest_speed => s.harvestState.harvest_speed.level
  | .crop_value => s.harvestState.crop_value.level
  | .crop_synergy => s.harvestState.crop_synergy.level
  | .harvest_boost => s.harvestState.harvest_boost.level
  | .lucky_harvest => s.harvestState.lucky_harvest.level

/-- Indices of locked cells, from src/App.tsx handleUnlockCell. -/
def lockedIndices (grid : List BoardCell) : List Nat :=
  (List.range grid.length).filter (fun i =>
    match grid.get? i with
    | some c => c.locked
    | none => false)

/-- Clear the locked flag of one cell. -/
def setUnlocked (grid : List BoardCell) (idx : Nat) : List BoardCell :=
  match grid.get? idx with
  | some cell => grid.set idx { cell with locked := false }
  | none => grid

/-- Plot expansion side effect, from src/App.tsx handleUnlockCell: no-op if
no locked cell remains, else unlock one locked cell chosen by the random
pick (Math.floor(Math.random() * length) modelled as pick mod length). -/
def handleUnlockCell (grid : List BoardCell) (pick : Nat) : List BoardCell :=
  match (lockedIndices grid).get? (pick % (lockedIndices grid).length) with
  | some idx => setUnlocked grid idx
  | none => grid

/-- Set the fertile flag of one cell. -/
def setFertile (grid : List BoardCell) (idx : Nat) : List BoardCell :=
  match grid.get? idx with
  | some cell => grid.set idx { cell with fertile := true }
  | none => grid

/-- Indices of unlocked non-fertile empty cells, from the
fertilizableEmptyIndices computation of src/App.tsx handleFertilizeCell. -/
def fertilizableEmptyIndices (grid : List BoardCell) : List Nat :=
  (List.range grid.length).filter (fun i =>
    match grid.get? i with
    | some c => !c.locked && !c.fertile && c.item.isNone
    | none => false)

/-- Indices of unlocked non-fertile occupied cells, from the
fertilizableWithPlantIndices computation of src/App.tsx
handleFertilizeCell. -/
def fertilizableWithPlantIndices (grid : List BoardCell) : List Nat :=
  (List.range grid.length).filter (fun i =>
    match grid.get? i with
    | some c => !c.locked && !c.fertile && c.item.isSome
    | none => false)

/-- Candidate pool for fertilization: empty cells are preferred; when none
exist the occupied eligible cells are used instead. -/
def fertilizeTargets (grid : List BoardCell) : List Nat :=
  if (fertilizableEmptyIndices grid).length = 0 then
    fertilizableWithPlantIndices grid
  else fertilizableEmptyIndices grid

/-- Fertile soil side effect, from src/App.tsx handleFertilizeCell: one cell
of the candidate pool is chosen by the random pick and marked fertile; no-op
when the pool is empty. -/
def handleFertilizeCell (grid : List BoardCell) (pick : Nat) : List BoardCell :=
  match (fertilizeTargets grid).get? (pick % (fertilizeTargets grid).length) with
  | some idx => setFertile grid idx
  | none => grid

/-- Level-up effect of one purchase, from the setter passed in handleUpgrade:
the level of the purchased id rises by exactly 1 and its progress resets;
when seed_quality reaches a positive multiple of 10, seedBaseTier also rises
by 1. -/
def applyLevelUp (id : UpgradeId) (s : GameSession) : GameSession :=
  match id with
  | .seed_production =>
    { s with seedsState := { s.seedsState with
        seed_production := ⟨s.seedsState.seed_production.level + 1, 0⟩ } }
  | .seed_quality =>
    let newLevel := s.seedsState.seed_quality.level + 1
    if 0 < newLevel ∧ newLevel % 10 = 0 then
      { s with seedsState := { s.seedsState with
          seed_quality := ⟨newLevel, 0⟩
          seedBaseTier := some (getSeedBaseTier s.seedsState + 1) } }
    else
      { s with seedsState := { s.seedsState with
          seed_quality := ⟨newLevel, 0⟩ } }
  | .seed_storage =>
    { s with seedsState := { s.seedsState with
        seed_storage := ⟨s.seedsState.seed_storage.level + 1, 0⟩ } }
  | .seed_surplus =>
    { s with seedsState := { s.seedsState with
        seed_surplus := ⟨s.seedsState.seed_surplus.level + 1, 0⟩ } }
  | .bonus_seeds =>
    { s with seedsState := { s.seedsState with
        bonus_seeds := ⟨s.seedsState.bonus_seeds.level + 1, 0⟩ } }
  | .plot_expansion =>
    { s with cropsState := { s.cropsState with
        plot_expansion := ⟨s.cropsState.plot_expansion.level + 1, 0⟩ } }
  | .crop_merging =>
    { s with cropsState := { s.cropsState with
        crop_merging := ⟨s.cropsState.crop_merging.level + 1, 0⟩ } }
  | .merge_harvest =>
    { s with cropsState := { s.cropsState with
        merge_harvest := ⟨s.cropsState.merge_harvest.level + 1, 0⟩ } }
  | .fertile_soil =>
    { s with cropsState := { s.cropsState with
        fertile_soil := ⟨s.cropsState.fertile_soil.level + 1, 0⟩ } }
  | .lucky_merge =>
    { s with cropsState := { s.cropsState with
        lucky_merge := ⟨s.cropsState.lucky_merge.level + 1, 0⟩ } }
  | .harvest_speed =>
    { s with harvestState := { s.harvestState with
        harvest_speed := ⟨s.harvestState.harvest_speed.level + 1, 0⟩ } }
  | .crop_value =>
    { s with harvestState := { s.harvestState with
        crop_value := ⟨s.harvestState.crop_value.level + 1, 0⟩ } }
  | .crop_synergy =>
    { s with harvestState := { s.harvestState with
        crop_synergy := ⟨s.harvestState.crop_synergy.level + 1, 0⟩ } }
  | .harvest_boost =>
    { s with harvestState := { s.harvestState with
        harvest_boost := ⟨s.harvestState.harvest_boost.level + 1, 0⟩ } }
  | .lucky_harvest =>
    { s with harvestState := { s.harvestState with
        lucky_harvest := ⟨s.harvestState.lucky_harvest.level + 1, 0⟩ } }

/-- Purchase operation, from src/components/UpgradeList.tsx handleUpgrade:
silently rejected when money is below the cost of the current level;
otherwise the cost is deducted, plot_expansion and fertile_soil trigger
their board side effect (random choice modelled by the pick oracle), and
the upgrade gains exactly one level. -/
def handleUpgrade (id : UpgradeId) (pick : Nat) (s : GameSession) :
    GameSession :=
  let cost := calculateUpgradeCost id (upgradeLevel id s)
  if s.money < cost then s
  else
    let s1 := { s with money := s.money - cost }
    let s2 :=
      if id = .plot_expansion then
        { s1 with grid := handleUnlockCell s1.grid pick }
      else if id = .fertile_soil then
        { s1 with grid := handleFertilizeCell s1.grid pick }
      else s1
    applyLevelUp id s2

/-- Axial neighbor coordinates, from src/App.tsx getHexNeighborCoords. -/
def getHexNeighborCoords (q r : Int) : List (Int × Int) :=
  [(q + 1, r), (q - 1, r), (q, r + 1), (q, r - 1), (q + 1, r - 1), (q - 1, r + 1)]

/-- Adjacency synergy test, from src/App.tsx hasAdjacentSameLevel: true iff
some other cell of the grid sits on a neighbor coordinate and holds an item
of the same level as the item of the given cell. -/
def hasAdjacentSameLevel (cellIdx : Nat) (grid : List BoardCell) : Bool :=
  match grid.get? cellIdx with
  | none => false
  | some cell =>
    match cell.item with
    | none => false
    | some it =>
      let neighbors := getHexNeighborCoords cell.q cell.r
      grid.enum.any (fun p =>
        if p.1 = cellIdx then false
        else
          match p.2.item with
          | none => false
          | some oit =>
            neighbors.any (fun nc =>
              nc.1 == p.2.q && nc.2 == p.2.r && oit.level == it.level))

/-- Per-cell harvest payout, from the loop body of src/App.tsx
performHarvest: base coin value, times the crop value multiplier, times the
synergy multiplier when it exceeds 1 and an adjacent same-level crop exists,
times 2 on a fertile cell, floored at the end. -/
def performHarvestCellValue (grid : List BoardCell) (hstate : HarvestState)
    (cellIdx : Nat) (cell : BoardCell) (it : Item) : ℤ :=
  let baseValue := getCoinValueForLevel it.level
  let cropValueMultiplier := getCropValueMultiplier hstate
  let cropSynergyMultiplier := getCropSynergyMultiplier hstate
  let v1 := baseValue * cropValueMultiplier
  let v2 :=
    if 1 < cropSynergyMultiplier ∧ hasAdjacentSameLevel cellIdx grid = true then
      v1 * cropSynergyMultiplier
    else v1
  let v3 := if cell.fertile then v2 * 2 else v2
  ⌊v3⌋

/-- Harvest payout formula exactly as the specification words it (for the
refinement comparison with performHarvestCellValue): floor of coin value
times crop value multiplier times synergy multiplier (the synergy
multiplier when an adjacent same-level crop exists, else 1) times the
fertile multiplier (2 on fertile cells, else 1). -/
def specHarvestCellValue (grid : List BoardCell) (hstate : HarvestState)
    (cellIdx : Nat) (cell : BoardCell) (it : Item) : ℤ :=
  let synergyMultiplier :=
    if hasAdjacentSameLevel cellIdx grid then getCropSynergyMultiplier hstate
    else 1
  let fertileMultiplier : ℚ := if cell.fertile then 2 else 1
  ⌊getCoinValueForLevel it.level * getCropValueMultiplier hstate *
      synergyMultiplier * fertileMultiplier⌋

/-- Total payout of one harvest event, from performHarvest: every occupied
cell contributes its per-cell value (each coin panel later adds its value to
money on impact). -/
def performHarvestTotal (grid : List BoardCell) (hstate : HarvestState) : ℤ :=
  (grid.enum.map (fun p =>
    match p.2.item with
    | some it => performHarvestCellValue grid hstate p.1 p.2 it
    | none => 0)).sum

/-- Harvest event at 100 percent, from the harvestProgress useEffect of
src/App.tsx: performHarvest runs once and the meter resets; the spawned coin
panels add the total payout to money. -/
def performHarvestEvent (s : GameSession) : GameSession :=
  { s with
    money := s.money + (performHarvestTotal s.grid s.harvestState : ℚ)
    harvestProgress := 0 }

/-- Board safety invariant: a locked cell never holds an item.  The other
half of the cell-occupancy invariant — at most one item per cell — holds
structurally in this model (and in the source data shape), because the item
slot of a BoardCell is a single optional value. -/
def boardInvariant (grid : List BoardCell) : Prop :=
  ∀ i c, grid.get? i = some c → c.locked = true → c.item = none

/-- Board effects of the public operations, as the UI invokes them.  Tap
plant fires a seed at a cell chosen among unlocked cells (handlePlantClick
filters on unlocked and empty; only unlocked-ness is needed here and it is
stable, so the later projectile impact is covered even though the cell may
have filled meanwhile — spawnCropAt itself re-checks emptiness).  The merge
action reaches handleMerge only through the HexBoard drop validation.  Tap
harvest never changes the grid (performHarvest pays without removing crops).
A purchase changes the grid only through handleUnlockCell (plot_expansion)
or handleFertilizeCell (fertile_soil); dropping the money gate only enlarges
the set of reachable grids, so the invariant proved below covers the gated
behavior as well. -/
inductive Step : List BoardCell → List BoardCell → Prop where
  | plant (grid : List BoardCell) (i lvl : Nat)
      (hu : isUnlockedCell grid i = true) :
      Step grid (spawnCropAt grid i lvl)
  | merge (crops : CropsState) (highestPlantEver : Nat) (roll : ℚ)
      (grid : List BoardCell) (s t : Nat)
      (hd : hexDropAllowed grid s t = true) :
      Step grid (mergeAction crops highestPlantEver roll grid s t)
  | unlock (grid : List BoardCell) (pick : Nat) :
      Step grid (handleUnlockCell grid pick)
  | fertilize (grid : List BoardCell) (pick : Nat) :
      Step grid (handleFertilizeCell grid pick)

/-- Grids reachable from the session-start grid through the public
operations. -/
def ReachableGrid (g : List BoardCell) : Prop :=
  Relation.ReflTransGen Step generateInitialGrid g

theorem boardInvariant_set (grid : List BoardCell) (i : Nat) (c : BoardCell)
    (hinv : boardInvariant grid) (hc : c.locked = true → c.item = none) :
    boardInvariant (grid.set i c) := by
  intro j d hj hl
  by_cases hij : i = j
  · subst hij
    rw [List.get?_set_eq] at hj
    cases h : grid.get? i with
    | none => rw [h] at hj; cases hj
    | some e => rw [h] at hj; cases hj; exact hc hl
  · rw [List.get?_set_ne _ _ hij] at hj
    exact hinv j d hj hl

theorem item_update_locked_cond (cell : BoardCell) (h : cell.locked = false)
    (item2 : Option Item) :
    ({ cell with item := item2 } : BoardCell).locked = true →
      ({ cell with item := item2 } : BoardCell).item = none :=
  fun hlk => absurd (show cell.locked = true from hlk) (by simp [h])

theorem spawnCropAt_preserves (grid : List BoardCell) (i lvl : Nat)
    (hu : isUnlockedCell grid i = true) (hinv : boardInvariant grid) :
    boardInvariant (spawnCropAt grid i lvl) := by
  cases h : grid.get? i with
  | none => simp only [spawnCropAt, h]; exact hinv
  | some cell =>
    have hlk : cell.locked = false := by
      have := hu
      simp only [isUnlockedCell, h, Bool.not_eq_true'] at this
      exact this
    simp only [spawnCropAt, h]
    split
    · exact boardInvariant_set _ _ _ hinv (item_update_locked_cond cell hlk _)
    · exact hinv

theorem handleMergeGrid_preserves (grid : List BoardCell) (s t inc : Nat)
    (hlt : ∀ ct, grid.get? t = some ct → ct.locked = false)
    (hinv : boardInvariant grid) :
    boardInvariant (handleMergeGrid grid s t inc) := by
  cases hs : grid.get? s with
  | none => simp only [handleMergeGrid, hs]; exact hinv
  | some source =>
    cases ht : grid.get? t with
    | none => simp only [handleMergeGrid, hs, ht]; exact hinv
    | some target =>
      have htl : target.locked = false := hlt target ht
      cases hsi : source.item with
      | none => simp only [handleMergeGrid, hs, ht, hsi]; exact hinv
      | some sItem =>
        cases hti : target.item with
        | none =>
          simp only [handleMergeGrid, hs, ht, hsi, hti]
          refine boardInvariant_set _ _ _ ?_ (fun _ => rfl)
          exact boardInvariant_set _ _ _ hinv (item_update_locked_cond target htl _)
        | some tItem =>
          simp only [handleMergeGrid, hs, ht, hsi, hti]
          split
          · refine boardInvariant_set _ _ _ ?_ (fun _ => rfl)
            exact boardInvariant_set _ _ _ hinv (item_update_locked_cond target htl _)
          · exact hinv

theorem mergeAction_preserves (crops : CropsState) (hp : Nat) (roll : ℚ)
    (grid : List BoardCell) (s t : Nat)
    (hd : hexDropAllowed grid s t = true) (hinv : boardInvariant grid) :
    boardInvariant (mergeAction crops hp roll grid s t) := by
  cases hs : grid.get? s with
  | none => simp only [mergeAction, hs]; exact hinv
  | some cs =>
    cases hsi : cs.item with
    | none => simp only [mergeAction, hs, hsi]; exact hinv
    | some it =>
      simp only [mergeAction, hs, hsi]
      refine handleMergeGrid_preserves grid s t _ ?_ hinv
      intro ct hct
      simp only [hexDropAllowed, hs, hct] at hd
      by_cases hlk : ct.locked = true
      · simp only [hlk, if_true] at hd
        split at hd <;> simp_all
      · exact Bool.not_eq_true _ ▸ hlk

theorem setUnlocked_preserves (grid : List BoardCell) (idx : Nat)
    (hinv : boardInvariant grid) : boardInvariant (setUnlocked grid idx) := by
  cases h : grid.get? idx with
  | none => simp only [setUnlocked, h]; exact hinv
  | some cell =>
    simp only [setUnlocked, h]
    exact boardInvariant_set _ _ _ hinv (fun hlk => by
      exact absurd (show false = true from hlk) (by simp))

theorem handleUnlockCell_preserves (grid : List BoardCell) (pick : Nat)
    (hinv : boardInvariant grid) :
    boardInvariant (handleUnlockCell grid pick) := by
  cases h : (lockedIndices grid).get? (pick % (lockedIndices grid).length) with
  | none => simp only [handleUnlockCell, h]; exact hinv
  | some idx =>
    simp only [handleUnlockCell, h]
    exact setUnlocked_preserves grid idx hinv

theorem setFertile_preserves (grid : List BoardCell) (idx : Nat)
    (hinv : boardInvariant grid) : boardInvariant (setFertile grid idx) := by
  cases h : grid.get? idx with
  | none => simp only [setFertile, h]; exact hinv
  | some cell =>
    simp only [setFertile, h]
    exact boardInvariant_set _ _ _ hinv (fun hlk =>
      hinv idx cell h (show cell.locked = true from hlk))

theorem handleFertilizeCell_preserves (grid : List BoardCell) (pick : Nat)
    (hinv : boardInvariant grid) :
    boardInvariant (handleFertilizeCell grid pick) := by
  cases h : (fertilizeTargets grid).get? (pick % (fertilizeTargets grid).length) with
  | none => simp only [handleFertilizeCell, h]; exact hinv
  | some idx =>
    simp only [handleFertilizeCell, h]
    exact setFertile_preserves grid idx hinv

theorem boardInvariant_initial : boardInvariant generateInitialGrid := by
  intro i c h _
  have hm : c ∈ generateInitialGrid := List.get?_mem h
  have hall : ∀ c ∈ generateInitialGrid, c.item = none := by decide
  exact hall c hm

theorem step_preserves (g g2 : List BoardCell) (hstep : Step g g2)
    (hinv : boardInvariant g) : boardInvariant g2 :=
  match hstep with
  | .plant _ i lvl hu => spawnCropAt_preserves g i lvl hu hinv
  | .merge crops hp roll _ s t hd =>
    mergeAction_preserves crops hp roll g s t hd hinv
  | .unlock _ pick => handleUnlockCell_preserves g pick hinv
  | .fertilize _ pick => handleFertilizeCell_preserves g pick hinv

/-! Claim theorems. -/

/-- C6: for every merge attempt whose level satisfies currentPlantLevel at
least highestPlantLevelEver, getMergeLevelIncrease returns 1 and never 2,
for every outcome of the lucky-merge random roll — the discovery guard takes
precedence over the roll. -/
theorem lucky_merge_discovery_guard (crops : CropsState)
    (highestPlantEver currentPlantLevel : Nat) (roll : ℚ)
    (h : highestPlantEver ≤ currentPlantLevel) :
    getMergeLevelIncrease crops highestPlantEver currentPlantLevel roll = 1 := by
  simp [getMergeLevelIncrease, h]

/-- Witness for C6: with lucky_merge at level 10 (chance 50) and a roll of 0
that would succeed, a merge at the current record level still yields +1. -/
theorem lucky_merge_discovery_guard_witness :
    (1 : Nat) ≤ 3 ∧
      getMergeLevelIncrease
        { createInitialCropsState with lucky_merge := ⟨10, 0⟩ } 1 3 0 = 1 :=
  ⟨by decide, lucky_merge_discovery_guard _ 1 3 0 (by decide)⟩

/-- Crops ledger with lucky_merge pushed one level past the cap threshold,
as reachable data for the cap formulas. -/
def cropsStateLevelEleven : CropsState :=
  { createInitialCropsState with lucky_merge := ⟨11, 0⟩ }

/-- C4 counterexample: getLuckyMergeChance has no Math.min cap in the code;
at level 11 it returns 55, exceeding the documented 50 cap, so the claim as
stated is false. -/
theorem chance_cap_counterexample :
    ¬ getLuckyMergeChance cropsStateLevelEleven ≤ 50 := by
  norm_num [getLuckyMergeChance, cropsStateLevelEleven]

/-- C4 amended: getBonusSeedChance is capped at 50 for every level by the
Math.min in its formula; the four other derived chance and percent formulas
are uncapped linear functions, but each stays within its documented cap
(50, 50, 50 and 20) for all levels up to 10 — and the purchase UI reports
these upgrades as maxed at level 10, blocking higher levels. -/
theorem chance_caps_amended (seeds : SeedsState) (crops : CropsState)
    (harvest : HarvestState) :
    getBonusSeedChance seeds ≤ 50 ∧
    (crops.lucky_merge.level ≤ 10 → getLuckyMergeChance crops ≤ 50) ∧
    (crops.merge_harvest.level ≤ 10 → getMergeHarvestChance crops ≤ 50) ∧
    (harvest.lucky_harvest.level ≤ 10 → getLuckyHarvestChance harvest ≤ 50) ∧
    (harvest.harvest_boost.level ≤ 10 → getHarvestBoostPercent harvest ≤ 20) := by
  refine ⟨min_le_right _ _, ?_, ?_, ?_, ?_⟩ <;> intro h
  · have hc : (crops.lucky_merge.level : ℚ) ≤ 10 := by exact_mod_cast h
    unfold getLuckyMergeChance
    linarith
  · have hc : (crops.merge_harvest.level : ℚ) ≤ 10 := by exact_mod_cast h
    unfold getMergeHarvestChance
    linarith
  · have hc : (harvest.lucky_harvest.level : ℚ) ≤ 10 := by exact_mod_cast h
    unfold getLuckyHarvestChance
    linarith
  · have hc : (harvest.harvest_boost.level : ℚ) ≤ 10 := by exact_mod_cast h
    unfold getHarvestBoostPercent
    linarith

/-- Seeds ledger at the cap threshold level 10. -/
def seedsStateLevelTen : SeedsState :=
  { createInitialSeedsState with bonus_seeds := ⟨10, 0⟩ }

/-- Crops ledger at the cap threshold level 10. -/
def cropsStateLevelTen : CropsState :=
  { createInitialCropsState with lucky_merge := ⟨10, 0⟩, merge_harvest := ⟨10, 0⟩ }

/-- Harvest ledger at the cap threshold level 10. -/
def harvestStateLevelTen : HarvestState :=
  { createInitialHarvestState with lucky_harvest := ⟨10, 0⟩, harvest_boost := ⟨10, 0⟩ }

/-- Witness for C4 amended, at the cap threshold level 10 everywhere. -/
theorem chance_caps_amended_witness :
    getBonusSeedChance seedsStateLevelTen ≤ 50 ∧
    getLuckyMergeChance cropsStateLevelTen ≤ 50 ∧
    getMergeHarvestChance cropsStateLevelTen ≤ 50 ∧
    getLuckyHarvestChance harvestStateLevelTen ≤ 50 ∧
    getHarvestBoostPercent harvestStateLevelTen ≤ 20 := by
  have h := chance_caps_amended seedsStateLevelTen cropsStateLevelTen
    harvestStateLevelTen
  exact ⟨h.1, h.2.1 (by decide), h.2.2.1 (by decide), h.2.2.2.1 (by decide),
    h.2.2.2.2 (by decide)⟩

/-- C5 counterexample: tapping the harvest meter at 90 percent fires exactly
one harvest event but leaves the meter at 0, not 5 — handleHarvestClick caps
the tap at 100 with Math.min and discards the excess. -/
theorem meter_overflow_counterexample :
    (harvestTapMeter 90).1 = 0 ∧ ¬ (harvestTapMeter 90).1 = 5 := by
  norm_num [harvestTapMeter]

/-- C5 amended: tapping the seed meter at 90 percent with the +15 increment
yields meter 5 and exactly one production event (the remainder past 100 is
preserved); tapping the harvest meter at 90 percent fires exactly one
harvest event but resets the meter to 0, because the harvest tap is capped
at 100 and the excess is discarded. -/
theorem meter_overflow_amended :
    seedTapMeter 90 = (5, 1) ∧ harvestTapMeter 90 = (0, 1) := by
  constructor <;> norm_num [seedTapMeter, harvestTapMeter]

theorem jsRound_lt_of_add_one_le (x y : ℚ) (h : x + 1 ≤ y) :
    jsRound x < jsRound y := by
  rw [jsRound_eq, jsRound_eq]
  have h1 : ⌊x + 1 / 2⌋ + 1 = ⌊x + 1 / 2 + 1⌋ := (Int.floor_add_one _).symm
  have h2 : ⌊x + 1 / 2 + 1⌋ ≤ ⌊y + 1 / 2⌋ := Int.floor_le_floor (by linarith)
  omega

theorem cost_strict_mono_aux (b g : ℚ) (hb : 0 < b) (hg : 1 ≤ g)
    (hgap : 5 ≤ (g - 1) * b) (L : Nat) :
    (jsRound (b * g ^ L / 5) : ℚ) * 5 < (jsRound (b * g ^ (L + 1) / 5) : ℚ) * 5 := by
  have hpow : (1 : ℚ) ≤ g ^ L := one_le_pow₀ hg
  have hg0 : (0 : ℚ) ≤ g - 1 := by linarith
  have hgrow : 5 ≤ (g - 1) * b * g ^ L := by nlinarith
  have hx : b * g ^ L / 5 + 1 ≤ b * g ^ (L + 1) / 5 := by
    have hdiff : b * g ^ (L + 1) - b * g ^ L = (g - 1) * b * g ^ L := by ring
    have h5 : 5 ≤ b * g ^ (L + 1) - b * g ^ L := by rw [hdiff]; exact hgrow
    linarith
  have hlt := jsRound_lt_of_add_one_le _ _ hx
  have hltq : (jsRound (b * g ^ L / 5) : ℚ) < (jsRound (b * g ^ (L + 1) / 5) : ℚ) := by
    exact_mod_cast hlt
  linarith

/-- C9: for every upgrade id except seed_quality, the purchase price follows
cost(level) = round(baseCost * growth ^ level / 5) * 5 with the base and
growth values of the UPGRADE_COSTS table, and the price is strictly
increasing in the level. -/
theorem upgrade_cost_strict_mono (id : UpgradeId)
    (hid : id ≠ UpgradeId.seed_quality) (L : Nat) :
    calculateUpgradeCost id L =
      (jsRound (upgradeBaseCost id * upgradeGrowth id ^ L / 5) : ℚ) * 5 ∧
    calculateUpgradeCost id L < calculateUpgradeCost id (L + 1) := by
  refine ⟨by rw [calculateUpgradeCost, if_neg hid], ?_⟩
  rw [calculateUpgradeCost, if_neg hid, calculateUpgradeCost, if_neg hid]
  cases id <;>
    first
    | exact absurd rfl hid
    | exact cost_strict_mono_aux _ _ (by norm_num [upgradeBaseCost])
        (by norm_num [upgradeGrowth])
        (by norm_num [upgradeBaseCost, upgradeGrowth]) L

/-- Witness for C9 at the crop_merging upgrade and level 0. -/
theorem upgrade_cost_strict_mono_witness :
    calculateUpgradeCost UpgradeId.crop_merging 0 =
      (jsRound (upgradeBaseCost UpgradeId.crop_merging *
        upgradeGrowth UpgradeId.crop_merging ^ 0 / 5) : ℚ) * 5 ∧
    calculateUpgradeCost UpgradeId.crop_merging 0 <
      calculateUpgradeCost UpgradeId.crop_merging 1 :=
  upgrade_cost_strict_mono UpgradeId.crop_merging (by decide) 0

/-- C10: the fresh session starts with money 0, empty seed storage, highest
plant level ever 1 and seed base tier 1; every upgrade of the three ledgers
starts at level 0 except plot_expansion, which starts at level 1, so the
first plot_expansion purchase is priced at cost(1) = 205 and not at the base
cost 150. -/
theorem initial_state_spec :
    initialGameSession.money = 0 ∧
    initialGameSession.seedsInStorage = 0 ∧
    initialGameSession.highestPlantEver = 1 ∧
    getSeedBaseTier initialGameSession.seedsState = 1 ∧
    upgradeLevel .seed_production initialGameSession = 0 ∧
    upgradeLevel .seed_quality initialGameSession = 0 ∧
    upgradeLevel .seed_storage initialGameSession = 0 ∧
    upgradeLevel .seed_surplus initialGameSession = 0 ∧
    upgradeLevel .bonus_seeds initialGameSession = 0 ∧
    upgradeLevel .crop_merging initialGameSession = 0 ∧
    upgradeLevel .merge_harvest initialGameSession = 0 ∧
    upgradeLevel .fertile_soil initialGameSession = 0 ∧
    upgradeLevel .lucky_merge initialGameSession = 0 ∧
    upgradeLevel .harvest_speed initialGameSession = 0 ∧
    upgradeLevel .crop_value initialGameSession = 0 ∧
    upgradeLevel .crop_synergy initialGameSession = 0 ∧
    upgradeLevel .harvest_boost initialGameSession = 0 ∧
    upgradeLevel .lucky_harvest initialGameSession = 0 ∧
    upgradeLevel .plot_expansion initialGameSession = 1 ∧
    calculateUpgradeCost .plot_expansion
      (upgradeLevel .plot_expansion initialGameSession) = 205 ∧
    (205 : ℚ) ≠ 150 := by
  refine ⟨rfl, rfl, rfl, rfl, rfl, rfl, rfl, rfl, rfl, rfl, rfl, rfl, rfl, rfl,
    rfl, rfl, rfl, rfl, rfl, ?_, by norm_num⟩
  show calculateUpgradeCost .plot_expansion 1 = 205
  rw [calculateUpgradeCost, if_neg (by decide)]
  norm_num [jsRound_eq, upgradeBaseCost, upgradeGrowth]

/-- Two-cell board: cell 0 unlocked holding a level-1 crop, cell 1 locked
and empty. -/
def lockedTargetGrid : List BoardCell :=
  [{ q := 0, r := 0, item := some { level := 1 }, locked := false, fertile := false },
   { q := 1, r := 0, item := none, locked := true, fertile := false }]

/-- C2 counterexample: the merge action with a locked empty target does not
leave the board unchanged — handleMerge never consults the locked flag, so
the crop relocates onto the locked cell.  The locked check lives only in the
HexBoard caller. -/
theorem noop_invariant_counterexample :
    mergeAction createInitialCropsState 1 0 lockedTargetGrid 0 1 ≠
      lockedTargetGrid := by
  have hinc : getMergeLevelIncrease createInitialCropsState 1 1 0 = 1 := by
    simp [getMergeLevelIncrease]
  have hred : mergeAction createInitialCropsState 1 0 lockedTargetGrid 0 1 =
      handleMergeGrid lockedTargetGrid 0 1
        (getMergeLevelIncrease createInitialCropsState 1 1 0) := rfl
  rw [hred, hinc]
  decide

/-- C2 amended: when the source holds a crop and the target holds a crop of
a different level — locked or not — the merge action leaves the entire board
unchanged.  The locked-target half of the original claim is false for
handleMerge itself: a locked empty target receives the crop, because the
locked check is performed by the HexBoard caller and never re-checked inside
handleMerge. -/
theorem noop_invariant_amended (crops : CropsState) (hp : Nat) (roll : ℚ)
    (grid : List BoardCell) (s t : Nat) (cs ct : BoardCell) (si ti : Item)
    (hs : grid.get? s = some cs) (hsi : cs.item = some si)
    (ht : grid.get? t = some ct) (hti : ct.item = some ti)
    (hlev : ti.level ≠ si.level) :
    mergeAction crops hp roll grid s t = grid := by
  simp only [mergeAction, hs, hsi, handleMergeGrid, ht, hti]
  rw [if_neg hlev]

/-- Two-cell board with crops of different levels. -/
def mismatchGrid : List BoardCell :=
  [{ q := 0, r := 0, item := some { level := 1 }, locked := false, fertile := false },
   { q := 1, r := 0, item := some { level := 2 }, locked := false, fertile := false }]

/-- Witness for C2 amended on a concrete mismatched pair. -/
theorem noop_invariant_amended_witness :
    mergeAction createInitialCropsState 1 0 mismatchGrid 0 1 = mismatchGrid :=
  noop_invariant_amended createInitialCropsState 1 0 mismatchGrid 0 1
    _ _ _ _ rfl rfl rfl rfl (by decide)

theorem applyLevelUp_money (id : UpgradeId) (s : GameSession) :
    (applyLevelUp id s).money = s.money := by
  cases id <;> simp only [applyLevelUp] <;> first | rfl | (split <;> rfl)

theorem applyLevelUp_grid (id : UpgradeId) (s : GameSession) :
    (applyLevelUp id s).grid = s.grid := by
  cases id <;> simp only [applyLevelUp] <;> first | rfl | (split <;> rfl)

theorem applyLevelUp_upLevel (id : UpgradeId) (s : GameSession) :
    upgradeLevel id (applyLevelUp id s) = upgradeLevel id s + 1 := by
  cases id <;> simp only [applyLevelUp, upgradeLevel] <;>
    first | rfl | (split <;> rfl)

theorem upgradeLevel_money_update (id : UpgradeId) (s : GameSession) (m : ℚ) :
    upgradeLevel id { s with money := m } = upgradeLevel id s := by
  cases id <;> rfl

theorem applyLevelUp_upLevel_other (id other : UpgradeId) (s : GameSession)
    (h : other ≠ id) :
    upgradeLevel other (applyLevelUp id s) = upgradeLevel other s := by
  cases id <;> cases other <;>
    first
    | exact absurd rfl h
    | (simp only [applyLevelUp, upgradeLevel] <;> first | rfl | (split <;> rfl))

/-- C8: a purchase with insufficient money changes no state at all;
otherwise it deducts exactly the cost of the current level, raises exactly
that upgrade by one level (leaving every other upgrade level unchanged), and
mutates the board exactly when the id is plot_expansion (one random unlock)
or fertile_soil (one random fertilization). -/
theorem purchase_spec (id : UpgradeId) (pick : Nat) (s : GameSession) :
    (s.money < calculateUpgradeCost id (upgradeLevel id s) →
      handleUpgrade id pick s = s) ∧
    (¬ s.money < calculateUpgradeCost id (upgradeLevel id s) →
      (handleUpgrade id pick s).money =
          s.money - calculateUpgradeCost id (upgradeLevel id s) ∧
        upgradeLevel id (handleUpgrade id pick s) = upgradeLevel id s + 1 ∧
        (∀ other, other ≠ id →
          upgradeLevel other (handleUpgrade id pick s) = upgradeLevel other s) ∧
        (handleUpgrade id pick s).grid =
          (if id = .plot_expansion then handleUnlockCell s.grid pick
           else if id = .fertile_soil then handleFertilizeCell s.grid pick
           else s.grid)) := by
  constructor
  · intro h
    simp only [handleUpgrade]
    rw [if_pos h]
  · intro h
    simp only [handleUpgrade]
    rw [if_neg h]
    by_cases h1 : id = .plot_expansion
    · subst h1
      exact ⟨rfl, rfl, fun other hother => by
        cases other <;> first | rfl | exact absurd rfl hother, rfl⟩
    · by_cases h2 : id = .fertile_soil
      · subst h2
        exact ⟨rfl, rfl, fun other hother => by
          cases other <;> first | rfl | exact absurd rfl hother, rfl⟩
      · simp only [if_neg h1, if_neg h2]
        refine ⟨?_, ?_, ?_, ?_⟩
        · rw [applyLevelUp_money]
        · rw [applyLevelUp_upLevel, upgradeLevel_money_update]
        · intro other hother
          rw [applyLevelUp_upLevel_other _ _ _ hother, upgradeLevel_money_update]
        · rw [applyLevelUp_grid]

/-- Witness for C8: buying crop_merging with money 1000 against cost 200,
and the rejection branch vacuously. -/
theorem purchase_spec_witness :
    (handleUpgrade .crop_merging 0 { initialGameSession with money := 1000 }).money =
        (1000 : ℚ) - calculateUpgradeCost .crop_merging 0 ∧
      upgradeLevel .crop_merging
          (handleUpgrade .crop_merging 0 { initialGameSession with money := 1000 }) = 1 ∧
      (handleUpgrade .crop_merging 0 { initialGameSession with money := 1000 }).grid =
        initialGameSession.grid := by
  have hcost : calculateUpgradeCost UpgradeId.crop_merging
      (upgradeLevel .crop_merging { initialGameSession with money := 1000 }) =
      calculateUpgradeCost UpgradeId.crop_merging 0 := rfl
  have hmoney : ¬ ({ initialGameSession with money := 1000 } : GameSession).money <
      calculateUpgradeCost UpgradeId.crop_merging
        (upgradeLevel .crop_merging { initialGameSession with money := 1000 }) := by
    rw [hcost, calculateUpgradeCost, if_neg (by decide)]
    norm_num [jsRound_eq, upgradeBaseCost, upgradeGrowth]
  have h := (purchase_spec .crop_merging 0
    { initialGameSession with money := 1000 }).2 hmoney
  exact ⟨h.1, h.2.1, h.2.2.2⟩

/-- C3: in every board state reachable from the fresh session through the
public operations (tap plant, tap harvest, merge action, purchase upgrade),
no locked cell holds an item.  The second half of the claim — no cell ever
holds more than one item — holds structurally: the item slot of a BoardCell
is one optional value in the source data shape and in this model. -/
theorem reachable_board_invariant (g : List BoardCell) (h : ReachableGrid g) :
    ∀ i c, g.get? i = some c → c.locked = true → c.item = none := by
  induction h with
  | refl => exact boardInvariant_initial
  | tail _ hstep ih => exact step_preserves _ _ hstep ih

/-- Witness for C3: after one plant action on the fresh board, the locked
cell at index 18 (axial 2 0) is still empty. -/
theorem reachable_board_invariant_witness :
    (spawnCropAt generateInitialGrid 9 1).get? 18 =
        some { q := 2, r := 0, item := none, locked := true, fertile := false } ∧
      ({ q := 2, r := 0, item := none, locked := true, fertile := false } :
        BoardCell).item = none :=
  ⟨by decide,
    reachable_board_invariant _
      (Relation.ReflTransGen.single (Step.plant generateInitialGrid 9 1 (by decide)))
      18 _ (by decide) rfl⟩

theorem getElem_of_get? {α : Type} {l : List α} {n : Nat} {a : α}
    (h : l.get? n = some a) (hn : n < l.length) : l[n] = a := by
  rw [List.get?_eq_getElem?, List.getElem?_eq_getElem hn] at h
  exact Option.some.inj h

/-- C1: after the merge action on two distinct cells holding crops of equal
level L, exactly one of the two cells is empty (the source), the other holds
a crop of level L+1 or L+2 and nothing else, the total crop count decreases
by exactly 1, and every other cell is unchanged. -/
theorem merge_invariant (crops : CropsState) (hp : Nat) (roll : ℚ)
    (grid : List BoardCell) (s t : Nat) (cs ct : BoardCell) (si ti : Item)
    (hst : s ≠ t)
    (hs : grid.get? s = some cs) (hsi : cs.item = some si)
    (ht : grid.get? t = some ct) (hti : ct.item = some ti)
    (hlev : ti.level = si.level) :
    ∃ inc, (inc = 1 ∨ inc = 2) ∧
      (mergeAction crops hp roll grid s t).get? s = some { cs with item := none } ∧
      (mergeAction crops hp roll grid s t).get? t =
        some { ct with item := some { level := si.level + inc } } ∧
      cropCount (mergeAction crops hp roll grid s t) + 1 = cropCount grid ∧
      ∀ i, i ≠ s → i ≠ t →
        (mergeAction crops hp roll grid s t).get? i = grid.get? i := by
  obtain ⟨hslen, -⟩ := List.get?_eq_some.mp hs
  obtain ⟨htlen, -⟩ := List.get?_eq_some.mp ht
  obtain ⟨inc, hinc⟩ : ∃ inc : Nat,
      getMergeLevelIncrease crops hp si.level roll = inc := ⟨_, rfl⟩
  have hinc12 : inc = 1 ∨ inc = 2 := by
    rw [← hinc]
    simp only [getMergeLevelIncrease]
    split
    · right; rfl
    · left; rfl
  have hfull : mergeAction crops hp roll grid s t =
      (grid.set t { ct with item := some { level := si.level + inc } }).set s
        { cs with item := none } := by
    simp only [mergeAction, hs, hsi, hinc, handleMergeGrid, ht, hti,
      if_pos hlev]
    rw [hlev]
  refine ⟨inc, hinc12, ?_, ?_, ?_, ?_⟩
  · rw [hfull, List.get?_set_eq,
      List.get?_set_ne _ grid (Ne.symm hst), hs]
    rfl
  · rw [hfull, List.get?_set_ne _ _ hst, List.get?_set_eq, ht]
    rfl
  · have hgt : grid[t] = ct := getElem_of_get? ht htlen
    have hslen2 : s < (grid.set t
        { ct with item := some { level := si.level + inc } }).length := by
      rw [List.length_set]; exact hslen
    have hgs2 : (grid.set t
        { ct with item := some { level := si.level + inc } }).get? s = some cs := by
      rw [List.get?_set_ne _ grid (Ne.symm hst)]; exact hs
    have hgse : (grid.set t
        { ct with item := some { level := si.level + inc } })[s] = cs :=
      getElem_of_get? hgs2 hslen2
    have hpos : 0 < grid.countP (fun c => c.item.isSome) :=
      List.countP_pos.mpr ⟨ct, List.get?_mem ht, by simp [hti]⟩
    have hc1 : (grid.set t
        { ct with item := some { level := si.level + inc } }).countP
          (fun c => c.item.isSome) =
        grid.countP (fun c => c.item.isSome) - 1 + 1 := by
      rw [List.countP_set _ _ _ _ htlen, hgt]
      simp [hti]
    have hc2 : ((grid.set t
        { ct with item := some { level := si.level + inc } }).set s
          { cs with item := none }).countP (fun c => c.item.isSome) =
        (grid.set t
          { ct with item := some { level := si.level + inc } }).countP
            (fun c => c.item.isSome) - 1 + 0 := by
      rw [List.countP_set _ _ _ _ hslen2, hgse]
      simp [hsi]
    show cropCount (mergeAction crops hp roll grid s t) + 1 = cropCount grid
    rw [hfull]
    unfold cropCount
    rw [hc2, hc1]
    omega
  · intro i his hit
    rw [hfull, List.get?_set_ne _ _ (Ne.symm his),
      List.get?_set_ne _ grid (Ne.symm hit)]

/-- Two-cell board with two level-1 crops. -/
def equalPairGrid : List BoardCell :=
  [{ q := 0, r := 0, item := some { level := 1 }, locked := false, fertile := false },
   { q := 1, r := 0, item := some { level := 1 }, locked := false, fertile := false }]

/-- Witness for C1 on a concrete equal-level pair with the fresh crops
ledger and roll 0. -/
theorem merge_invariant_witness :
    ∃ inc, (inc = 1 ∨ inc = 2) ∧
      (mergeAction createInitialCropsState 1 0 equalPairGrid 0 1).get? 0 =
        some { q := 0, r := 0, item := none, locked := false, fertile := false } ∧
      (mergeAction createInitialCropsState 1 0 equalPairGrid 0 1).get? 1 =
        some { q := 1, r := 0, item := some { level := 1 + inc },
               locked := false, fertile := false } ∧
      cropCount (mergeAction createInitialCropsState 1 0 equalPairGrid 0 1) + 1 =
        cropCount equalPairGrid ∧
      ∀ i, i ≠ 0 → i ≠ 1 →
        (mergeAction createInitialCropsState 1 0 equalPairGrid 0 1).get? i =
          equalPairGrid.get? i :=
  merge_invariant createInitialCropsState 1 0 equalPairGrid 0 1 _ _ _ _
    (by decide) rfl rfl rfl rfl rfl

/-- Scenario grid for C7: the fresh board with one level-3 crop planted at
the center cell (index 9, axial 0 0). -/
def harvestScenarioGrid : List BoardCell := spawnCropAt generateInitialGrid 9 3

/-- Scenario session for C7: the fresh session carrying the scenario
board. -/
def harvestScenarioSession : GameSession :=
  { initialGameSession with grid := harvestScenarioGrid }

/-- Scenario grid spelled out cell by cell (proved equal to
harvestScenarioGrid in the scenario proof). -/
def harvestScenarioGridLit : List BoardCell :=
  [⟨-2, 0, none, true, false⟩, ⟨-2, 1, none, true, false⟩,
   ⟨-2, 2, none, true, false⟩, ⟨-1, -1, none, true, false⟩,
   ⟨-1, 0, none, false, false⟩, ⟨-1, 1, none, false, false⟩,
   ⟨-1, 2, none, true, false⟩, ⟨0, -2, none, true, false⟩,
   ⟨0, -1, none, false, false⟩, ⟨0, 0, some ⟨3⟩, false, false⟩,
   ⟨0, 1, none, false, false⟩, ⟨0, 2, none, true, false⟩,
   ⟨1, -2, none, true, false⟩, ⟨1, -1, none, false, false⟩,
   ⟨1, 0, none, false, false⟩, ⟨1, 1, none, true, false⟩,
   ⟨2, -2, none, true, false⟩, ⟨2, -1, none, true, false⟩,
   ⟨2, 0, none, true, false⟩]

/-- C7: every occupied cell pays the floor of coin value times crop value
multiplier times synergy multiplier (the crop synergy multiplier exactly
when some adjacent cell holds a same-level crop, else 1) times the fertile
multiplier (2 when fertile, else 1) — the per-cell value computed by
performHarvest coincides with the specification formula on every input;
and in the concrete scenario of one level-3 crop on the fresh board with
all upgrade levels 0, completing the harvest meter adds exactly 20 to
money. -/
theorem harvest_payout_spec :
    (∀ (grid : List BoardCell) (hstate : HarvestState) (cellIdx : Nat)
        (cell : BoardCell) (it : Item),
      performHarvestCellValue grid hstate cellIdx cell it =
        specHarvestCellValue grid hstate cellIdx cell it) ∧
    (performHarvestEvent harvestScenarioSession).money =
      harvestScenarioSession.money + 20 := by
  constructor
  · intro grid hstate cellIdx cell it
    have hge : (1 : ℚ) ≤ getCropSynergyMultiplier hstate := by
      unfold getCropSynergyMultiplier
      have hn : (0 : ℚ) ≤ (1 / 10) * (hstate.crop_synergy.level : ℚ) := by
        positivity
      linarith
    simp only [performHarvestCellValue, specHarvestCellValue]
    split_ifs with h1 h2 h3 h4 h5 h6 h7
    · congr 1 <;> ring
    · exact absurd h2.2 h3
    · have hm1 : getCropSynergyMultiplier hstate = 1 :=
        le_antisymm (not_lt.mp fun hlt => h2 ⟨hlt, h4⟩) hge
      rw [hm1]
      congr 1 <;> ring
    · congr 1 <;> ring
    · congr 1 <;> ring
    · exact absurd h5.2 h6
    · have hm1 : getCropSynergyMultiplier hstate = 1 :=
        le_antisymm (not_lt.mp fun hlt => h5 ⟨hlt, h7⟩) hge
      rw [hm1]
      congr 1 <;> ring
    · congr 1 <;> ring
  · have hg : harvestScenarioGrid = harvestScenarioGridLit := by decide
    have hmult : ¬ (1 : ℚ) < getCropSynergyMultiplier createInitialHarvestState := by
      norm_num [getCropSynergyMultiplier, createInitialHarvestState]
    have hv : ∀ g : List BoardCell, performHarvestCellValue g
        createInitialHarvestState 9 ⟨0, 0, some ⟨3⟩, false, false⟩ ⟨3⟩ = 20 := by
      intro g
      simp only [performHarvestCellValue]
      rw [if_neg Bool.false_ne_true, if_neg (fun hcon => hmult hcon.1)]
      norm_num [getCoinValueForLevel, getCropValueMultiplier,
        createInitialHarvestState]
    have htot : performHarvestTotal harvestScenarioGrid
        createInitialHarvestState = 20 := by
      rw [hg]
      simp only [performHarvestTotal, harvestScenarioGridLit, List.enum,
        List.enumFrom, List.map, List.sum_cons, List.sum_nil]
      rw [hv]
      norm_num
    show harvestScenarioSession.money +
        (performHarvestTotal harvestScenarioGrid createInitialHarvestState : ℚ) =
      harvestScenarioSession.money + 20
    rw [htot]
    norm_num

end FarmMerge
